import Mathlib

/-!
Verification of the espterm-firmware virtual screen module.

The repository ships the interface header src/user/screen.h, which fixes
the configuration bundle layout, the attribute bit masks, the factory
default constants, the ClearMode enumeration and the WordB2 record.
The bodies of the screen functions (screen.c and the ANSI interpreter)
are not part of the repository snapshot, so those operations are
modelled from the specification; every such definition carries a doc
comment starting with the words Modelled from the spec.

Machine integers are embedded as Nat with explicit truncation modulo
2 to the 8 where a u8 field makes overflow observable.
-/

namespace ESPTerm

/-- Size designed for the terminal config structure (src/user/screen.h line 39). -/
def TERMCONF_SIZE : Nat := 200

/-- Button label capacity in bytes (src/user/screen.h line 41). -/
def TERM_BTN_LEN : Nat := 10

/-- Title capacity in bytes (src/user/screen.h line 42). -/
def TERM_TITLE_LEN : Nat := 64

/-- Attribute bit masks (src/user/screen.h lines 49 to 55). -/
def ATTR_BOLD : Nat := 1 <<< 0

def ATTR_FAINT : Nat := 1 <<< 1

def ATTR_ITALIC : Nat := 1 <<< 2

def ATTR_UNDERLINE : Nat := 1 <<< 3

def ATTR_BLINK : Nat := 1 <<< 4

def ATTR_FRAKTUR : Nat := 1 <<< 5

def ATTR_STRIKE : Nat := 1 <<< 6

/-- Modelled from the spec: screen.c is absent from the snapshot; the data
model in the spec lists inverse as the eighth member of the cell attribute
bitset, alongside the seven masks the header defines on bits 0 to 6, so it
is represented on the one remaining bit of the attribute byte. -/
def ATTR_INVERSE : Nat := 1 <<< 7

/-- Factory default constants (src/user/screen.h lines 57 to 62). -/
def SCR_DEF_DISPLAY_TOUT_MS : Nat := 20

def SCR_DEF_PARSER_TOUT_MS : Nat := 10

def SCR_DEF_FN_ALT_MODE : Bool := false

def SCR_DEF_WIDTH : Nat := 26

def SCR_DEF_HEIGHT : Nat := 10

def SCR_DEF_TITLE : String := "ESPTerm"

/-- Maximum screen size (src/user/screen.h line 65). -/
def MAX_SCREEN_SIZE : Nat := 80 * 25

/-- The persisted configuration bundle (src/user/screen.h lines 67 to 78).
Field order and widths follow the C declaration: u32 width, u32 height,
u8 default_bg, u8 default_fg, char title of TERM_TITLE_LEN, five button
labels of TERM_BTN_LEN chars each, u8 theme, u32 parser_tout_ms,
u32 display_tout_ms, bool fn_alt_mode. -/
structure TerminalConfigBundle where
  width : Nat
  height : Nat
  default_bg : Nat
  default_fg : Nat
  title : String
  btn : List String
  theme : Nat
  parser_tout_ms : Nat
  display_tout_ms : Nat
  fn_alt_mode : Bool
deriving DecidableEq

/-- Byte width of the C type u32 on the target. -/
def sizeof_u32 : Nat := 4

/-- Byte width of the C type u8 on the target. -/
def sizeof_u8 : Nat := 1

/-- Byte width of the C type char on the target. -/
def sizeof_char : Nat := 1

/-- Byte width of the C type bool on the target. -/
def sizeof_bool : Nat := 1

/-- Byte widths of the fields of TerminalConfigBundle in declaration order
(src/user/screen.h lines 67 to 78): width, height, default_bg, default_fg,
title, the five button labels taken together, theme, parser_tout_ms,
display_tout_ms, fn_alt_mode. -/
def termconfFieldSizes : List Nat :=
  [sizeof_u32, sizeof_u32, sizeof_u8, sizeof_u8,
   sizeof_char * TERM_TITLE_LEN, 5 * (sizeof_char * TERM_BTN_LEN),
   sizeof_u8, sizeof_u32, sizeof_u32, sizeof_bool]

/-- Two byte word for the serializer (src/user/screen.h lines 104 to 107).
Both fields are u8, hence values below 256. -/
structure WordB2 where
  lsb : Nat
  msb : Nat
deriving DecidableEq

/-- Modelled from the spec: the body of encode2B is not under src; the spec
says it encodes a 16 bit integer into two printable bytes in the ASCII range
starting at 1, which is the offset by one base 127 split of the number; the
results are truncated modulo 256 because the WordB2 fields are u8
(src/user/screen.h lines 104 to 107). -/
def encode2B (number : Nat) : WordB2 :=
  { lsb := (number % 127 + 1) % 256
    msb := (number / 127 + 1) % 256 }

/-- Clear mode enumeration (src/user/screen.h lines 94 to 96). -/
inductive ClearMode where
  | CLEAR_TO_CURSOR
  | CLEAR_FROM_CURSOR
  | CLEAR_ALL
deriving DecidableEq

/-- Numeric value of each ClearMode constant, as assigned in the C enum:
CLEAR_TO_CURSOR=0, CLEAR_FROM_CURSOR=1, CLEAR_ALL=2. -/
def ClearMode.val : ClearMode → Nat
  | .CLEAR_TO_CURSOR => 0
  | .CLEAR_FROM_CURSOR => 1
  | .CLEAR_ALL => 2

/-- One screen cell: glyph bytes (empty means space), foreground and
background palette indices, and the attribute byte. Modelled from the spec:
the cell struct lives in the absent screen.c; the spec data model gives
glyph, fg, bg and the attribute bitset. -/
structure Cell where
  c : List Nat
  fg : Nat
  bg : Nat
  attrs : Nat
deriving DecidableEq

/-- Modelled from the spec: blank cells use the given default colors and no
attributes. -/
def blankCell (fg bg : Nat) : Cell :=
  { c := [], fg := fg, bg := bg, attrs := 0 }

/-- Modelled from the spec: the serializer applies the inverse swap of the
effective foreground and background at serialization time only; the stored
indices are never touched. Returns the effective pair (fg, bg). -/
def serializedColors (cell : Cell) : Nat × Nat :=
  if cell.attrs.testBit 7 then (cell.bg, cell.fg) else (cell.fg, cell.bg)

/-- Cursor state: position, current colors, attribute byte and the active
character set slot. Modelled from the spec: the cursor record lives in the
absent screen.c; the spec cursor model lists position, current fg, bg,
attribute bitset and the active G slot. The column x ranges over 0..W,
where x = W is the pending wrap state. -/
structure CursorState where
  y : Nat
  x : Nat
  fg : Nat
  bg : Nat
  attrs : Nat
  charsetN : Nat
deriving DecidableEq

/-- Whole terminal state. Modelled from the spec: scratch configuration,
active grid size, grid, cursor, the two saved cursor slots (DECSC style
with attributes, and cursor only), tab stops, scroll region, the four
character set slots and the mode flags. -/
structure TerminalState where
  conf : TerminalConfigBundle
  w : Nat
  h : Nat
  grid : Nat → Nat → Cell
  cursor : CursorState
  saved_dec : Option CursorState
  saved_plain : Option CursorState
  tab_stops : Nat → Bool
  region_top : Nat
  region_bot : Nat
  charsets : Nat → Char
  wrap_mode : Bool
  insert_flag : Bool
  cursor_visible : Bool
  newline_mode : Bool
  origin_mode : Bool
  numpad_alt : Bool
  cursors_alt : Bool

/-- Clamp a dimension into the legal range, as the spec bounds the grid to
widths 1..80 and heights 1..25. -/
def clampDim (v lo hi : Nat) : Nat := max lo (min v hi)

/-- Clamp an integer coordinate into the inclusive range lo..hi of rows or
columns and return it as a Nat. -/
def clampToNat (v : Int) (lo hi : Nat) : Nat :=
  (max (lo : Int) (min v (hi : Int))).toNat

/-- Modelled from the spec: screen_init builds the fresh state from the
persisted bundle: grid of blanks in the default colors, cursor homed with
default colors and no attributes, empty save slots, tab stops every 8
columns, full height scroll region, all charset slots at US ASCII (B) and
all mode flags at their defaults (auto wrap on, the rest off except
cursor visible). -/
def screen_init (cfg : TerminalConfigBundle) : TerminalState :=
  { conf := cfg
    w := clampDim cfg.width 1 80
    h := clampDim cfg.height 1 25
    grid := fun _ _ => blankCell cfg.default_fg cfg.default_bg
    cursor := { y := 0, x := 0, fg := cfg.default_fg, bg := cfg.default_bg,
                attrs := 0, charsetN := 0 }
    saved_dec := none
    saved_plain := none
    tab_stops := fun i => i % 8 == 0
    region_top := 0
    region_bot := clampDim cfg.height 1 25 - 1
    charsets := fun _ => 'B'
    wrap_mode := true
    insert_flag := false
    cursor_visible := true
    newline_mode := false
    origin_mode := false
    numpad_alt := false
    cursors_alt := false }

/-- Modelled from the spec: terminal_apply_settings copies the persisted
bundle into the scratch slot and lays the grid dimensions out again. -/
def terminal_apply_settings (cfg : TerminalConfigBundle) (st : TerminalState) :
    TerminalState :=
  { st with conf := cfg, w := clampDim cfg.width 1 80, h := clampDim cfg.height 1 25 }

/-- Modelled from the spec: reset all mode flags to their defaults. -/
def reset_modes (st : TerminalState) : TerminalState :=
  { st with wrap_mode := true, insert_flag := false, cursor_visible := true,
            newline_mode := false, origin_mode := false,
            numpad_alt := false, cursors_alt := false }

/-- Modelled from the spec: clear the grid to blanks in the scratch default
colors. -/
def clear_grid (st : TerminalState) : TerminalState :=
  { st with grid := fun _ _ => blankCell st.conf.default_fg st.conf.default_bg }

/-- Modelled from the spec: home the cursor and reset its SGR state to the
scratch defaults. -/
def cursor_home_sgr (st : TerminalState) : TerminalState :=
  { st with cursor := { y := 0, x := 0, fg := st.conf.default_fg,
                        bg := st.conf.default_bg, attrs := 0, charsetN := 0 } }

/-- Modelled from the spec: restore the full height scroll region. -/
def reset_region (st : TerminalState) : TerminalState :=
  { st with region_top := 0, region_bot := st.h - 1 }

/-- Modelled from the spec: restore the default tab stops, every 8 columns
starting at column 0. -/
def reset_tabs (st : TerminalState) : TerminalState :=
  { st with tab_stops := fun i => i % 8 == 0 }

/-- Modelled from the spec: reset the character set slots G0..G3 to US
ASCII. -/
def reset_charsets (st : TerminalState) : TerminalState :=
  { st with charsets := fun _ => 'B' }

/-- Modelled from the spec: clear both saved cursor slots. -/
def clear_save_slots (st : TerminalState) : TerminalState :=
  { st with saved_dec := none, saved_plain := none }

/-- Modelled from the spec: screen_reset re-applies the persisted
configuration to scratch, resets all mode flags to defaults, clears the
grid, homes the cursor, clears the save slots, restores the default tab
stops and the full height scroll region, and resets the character set
slots to US ASCII. -/
def screen_reset (cfg : TerminalConfigBundle) (st : TerminalState) : TerminalState :=
  clear_save_slots (reset_charsets (reset_tabs (reset_region
    (cursor_home_sgr (clear_grid (reset_modes (terminal_apply_settings cfg st)))))))

/-- Modelled from the spec: defaults written to the persisted bundle by
terminal_restore_defaults. The width, height, title, timeouts and fn alt
mode come from the SCR_DEF constants of the header; default fg 7 and
default bg 0 come from the spec defaults section. -/
def terminal_restore_defaults : TerminalConfigBundle :=
  { width := SCR_DEF_WIDTH
    height := SCR_DEF_HEIGHT
    default_bg := 0
    default_fg := 7
    title := SCR_DEF_TITLE
    btn := ["1", "2", "3", "4", "5"]
    theme := 0
    parser_tout_ms := SCR_DEF_PARSER_TOUT_MS
    display_tout_ms := SCR_DEF_DISPLAY_TOUT_MS
    fn_alt_mode := SCR_DEF_FN_ALT_MODE }

/-- Modelled from the spec: screen_scroll_up moves the rows of the scroll
region up by the given count, filling the vacated bottom rows with blanks
in the current colors; rows outside the region are untouched. -/
def screen_scroll_up (lines : Nat) (st : TerminalState) : TerminalState :=
  { st with grid := fun y x =>
      if st.region_top ≤ y ∧ y ≤ st.region_bot then
        if y + lines ≤ st.region_bot then st.grid (y + lines) x
        else blankCell st.cursor.fg st.cursor.bg
      else st.grid y x }

/-- Modelled from the spec: screen_scroll_down moves the rows of the scroll
region down by the given count, filling the vacated top rows with blanks
in the current colors; rows outside the region are untouched. -/
def screen_scroll_down (lines : Nat) (st : TerminalState) : TerminalState :=
  { st with grid := fun y x =>
      if st.region_top ≤ y ∧ y ≤ st.region_bot then
        if st.region_top + lines ≤ y then st.grid (y - lines) x
        else blankCell st.cursor.fg st.cursor.bg
      else st.grid y x }

/-- Modelled from the spec: screen_cursor_set clips the absolute target to
the screen, or to the scroll region when origin mode is on, and clears the
pending wrap state. -/
def screen_cursor_set (y x : Int) (st : TerminalState) : TerminalState :=
  { st with cursor := { st.cursor with
      y := if st.origin_mode then
             clampToNat (y + (st.region_top : Int)) st.region_top st.region_bot
           else clampToNat y 0 (st.h - 1)
      x := clampToNat x 0 (st.w - 1) } }

/-- Modelled from the spec: relative cursor move. Horizontal moves clip to
the line; vertical moves clip to the screen when scroll is false, and when
scroll is true the excess over the scroll region boundary turns into
scrolls while the cursor stays clipped to the region. -/
def screen_cursor_move (dy dx : Int) (scroll : Bool) (st : TerminalState) :
    TerminalState :=
  let target : Int := (st.cursor.y : Int) + dy
  let newGrid : Nat → Nat → Cell :=
    if scroll then
      if (st.region_bot : Int) < target then
        (screen_scroll_up (target - (st.region_bot : Int)).toNat st).grid
      else if target < (st.region_top : Int) then
        (screen_scroll_down ((st.region_top : Int) - target).toNat st).grid
      else st.grid
    else st.grid
  let newY := if scroll then clampToNat target st.region_top st.region_bot
              else clampToNat target 0 (st.h - 1)
  { st with grid := newGrid
            cursor := { st.cursor with
              y := newY
              x := clampToNat ((st.cursor.x : Int) + dx) 0 (st.w - 1) } }

/-- Modelled from the spec: index down one line; at the scroll region
bottom the region scrolls and the row stays, otherwise the cursor steps
down, stopping at the last screen row. -/
def index_down (st : TerminalState) : TerminalState :=
  { st with
    grid := if st.cursor.y = st.region_bot then (screen_scroll_up 1 st).grid
            else st.grid
    cursor := { st.cursor with
      y := if st.cursor.y = st.region_bot then st.cursor.y
           else min (st.cursor.y + 1) (st.h - 1) } }

/-- Modelled from the spec: screen_putchar. With auto wrap on and the
cursor in the pending wrap column, first index down and return to column
0. In insert mode the tail of the row shifts right by one before the
write. The glyph is stored with the cursor colors and attribute byte.
Then the cursor advances; past the last column it either stays in the
pending wrap column W (auto wrap on) or clamps to W - 1 (auto wrap
off). -/
def screen_putchar (ch : List Nat) (st : TerminalState) : TerminalState :=
  let row := if st.wrap_mode ∧ st.w ≤ st.cursor.x then (index_down st).cursor.y
             else st.cursor.y
  let x0 := if st.wrap_mode ∧ st.w ≤ st.cursor.x then 0 else st.cursor.x
  let g0 : Nat → Nat → Cell :=
    if st.wrap_mode ∧ st.w ≤ st.cursor.x then (index_down st).grid else st.grid
  let xw := min x0 (st.w - 1)
  let gridIns : Nat → Nat → Cell :=
    if st.insert_flag then
      fun y x => if y = row ∧ xw < x ∧ x < st.w then g0 y (x - 1)
                 else g0 y x
    else g0
  let written : Nat → Nat → Cell := fun y x =>
    if y = row ∧ x = xw then
      { c := ch, fg := st.cursor.fg, bg := st.cursor.bg, attrs := st.cursor.attrs }
    else gridIns y x
  let x2 := if st.w ≤ xw + 1 then (if st.wrap_mode then st.w else st.w - 1)
            else xw + 1
  { st with grid := written, cursor := { st.cursor with y := row, x := x2 } }

/-- Modelled from the spec: screen_cursor_save stores the cursor into the
DECSC slot when withAttrs is true, else into the cursor only slot. -/
def screen_cursor_save (withAttrs : Bool) (st : TerminalState) : TerminalState :=
  if withAttrs then { st with saved_dec := some st.cursor }
  else { st with saved_plain := some st.cursor }

/-- Modelled from the spec: screen_cursor_restore reads the matching slot;
the DECSC slot restores position, colors, attributes and charset, the
plain slot restores only the position; an empty slot restores the home
defaults. -/
def screen_cursor_restore (withAttrs : Bool) (st : TerminalState) : TerminalState :=
  if withAttrs then
    match st.saved_dec with
    | some cs => { st with cursor := cs }
    | none => { st with cursor := { st.cursor with y := 0, x := 0 } }
  else
    match st.saved_plain with
    | some cs => { st with cursor := { st.cursor with y := cs.y, x := cs.x } }
    | none => { st with cursor := { st.cursor with y := 0, x := 0 } }

/-- Modelled from the spec: screen_attr_enable sets the given attribute
bits on the cursor attribute byte. -/
def screen_attr_enable (attrs : Nat) (st : TerminalState) : TerminalState :=
  { st with cursor := { st.cursor with attrs := st.cursor.attrs ||| attrs } }

/-- Modelled from the spec: screen_attr_disable clears the given attribute
bits on the cursor attribute byte (bitwise and with the 8 bit
complement). -/
def screen_attr_disable (attrs : Nat) (st : TerminalState) : TerminalState :=
  { st with cursor := { st.cursor with attrs := st.cursor.attrs &&& (255 ^^^ attrs) } }

/-- Modelled from the spec: screen_inverse_enable sets or clears the
inverse flag in the cursor attribute byte, exactly like the seven masked
attributes, and touches no color index. -/
def screen_inverse_enable (ena : Bool) (st : TerminalState) : TerminalState :=
  if ena then screen_attr_enable ATTR_INVERSE st
  else screen_attr_disable ATTR_INVERSE st

/-- Modelled from the spec: the column set cleared in the cursor row by
screen_clear_line; mode 0 clears up to and including the cursor, mode 1
clears from the cursor to the end of the line, mode 2 clears the whole
line. -/
def clearLineCols (mode : ClearMode) (cx w col : Nat) : Bool :=
  match mode with
  | .CLEAR_TO_CURSOR => decide (col ≤ cx)
  | .CLEAR_FROM_CURSOR => decide (cx ≤ col ∧ col < w)
  | .CLEAR_ALL => decide (col < w)

/-- Modelled from the spec: the cell set cleared by screen_clear; mode 0
clears from the screen start up to and including the cursor, mode 1 from
the cursor to the screen end, mode 2 the whole screen. -/
def clearScreenCells (mode : ClearMode) (cy cx w : Nat) (y x : Nat) : Bool :=
  match mode with
  | .CLEAR_TO_CURSOR => decide (y < cy ∨ (y = cy ∧ x ≤ cx))
  | .CLEAR_FROM_CURSOR => decide (cy < y ∨ (y = cy ∧ cx ≤ x ∧ x < w))
  | .CLEAR_ALL => true

/-- Modelled from the spec: screen_clear_line blanks the cleared columns
of the cursor row in the current colors. -/
def screen_clear_line (mode : ClearMode) (st : TerminalState) : TerminalState :=
  { st with grid := fun y x =>
      if y = st.cursor.y ∧ clearLineCols mode st.cursor.x st.w x then
        blankCell st.cursor.fg st.cursor.bg
      else st.grid y x }

/-- Modelled from the spec: screen_clear blanks the cleared cells in the
current colors. -/
def screen_clear (mode : ClearMode) (st : TerminalState) : TerminalState :=
  { st with grid := fun y x =>
      if clearScreenCells mode st.cursor.y st.cursor.x st.w y x then
        blankCell st.cursor.fg st.cursor.bg
      else st.grid y x }

/-- The cursor movement calls a parsed input stream can drive: absolute
set, relative move and glyph output. -/
inductive CursorOp where
  | set (y x : Int)
  | move (dy dx : Int) (scroll : Bool)
  | put (ch : List Nat)

/-- Apply one cursor movement call to the state. -/
def applyCursorOp (op : CursorOp) (st : TerminalState) : TerminalState :=
  match op with
  | .set y x => screen_cursor_set y x st
  | .move dy dx sc => screen_cursor_move dy dx sc st
  | .put ch => screen_putchar ch st

/-- Apply a whole sequence of cursor movement calls. -/
def applyCursorOps (ops : List CursorOp) (st : TerminalState) : TerminalState :=
  ops.foldl (fun s op => applyCursorOp op s) st

/-- The cursor bounds invariant: 0 ≤ y < H and 0 ≤ x ≤ W, with x = W only
as the pending wrap state. -/
def CursorInBounds (st : TerminalState) : Prop :=
  st.cursor.y < st.h ∧ st.cursor.x ≤ st.w

/-- Structural well formedness: nonempty screen and a scroll region inside
it. -/
def StateWF (st : TerminalState) : Prop :=
  1 ≤ st.w ∧ 1 ≤ st.h ∧ st.region_top ≤ st.region_bot ∧ st.region_bot < st.h

/-- Claim C2: for every reachable terminal state, screen_reset yields the
state screen_init builds from the same persisted bundle: configuration
re-applied to scratch, mode flags at defaults, grid cleared, cursor homed,
save slots cleared, default tab stops, full height scroll region and
charset slots G0..G3 at US ASCII. -/
theorem screen_reset_eq_screen_init (cfg : TerminalConfigBundle) (st : TerminalState) :
    screen_reset cfg st = screen_init cfg := rfl

/-- Claim C3: the persisted bundle fields have widths 4, 4, 1, 1, 64,
50 (five labels of 10), 1, 4, 4, 1 in declaration order, their sum fits
under the fixed serialized size with padding, and TERMCONF_SIZE is 200. -/
theorem termconf_layout_200 :
    termconfFieldSizes = [4, 4, 1, 1, 64, 50, 1, 4, 4, 1]
    ∧ termconfFieldSizes.sum ≤ TERMCONF_SIZE
    ∧ TERMCONF_SIZE = 200 := by decide

/-- Claim C5 counterexample: encode2B does not stay NUL free over the full
16 bit range; at input 32385 the msb byte is 0, because the offset base
127 high digit reaches 256 and the u8 field truncates it. -/
theorem encode2B_nul_at_32385 :
    32385 < 65536 ∧ (encode2B 32385).msb = 0 := by decide

/-- Claim C5 (amended): for inputs below 127 * 127 = 16129 both bytes of
encode2B are in the printable range 1..127, so neither is NUL; above that
bound printability and even NUL freedom fail. -/
theorem encode2B_printable_below_16129 (n : Nat) (h : n < 127 * 127) :
    1 ≤ (encode2B n).lsb ∧ (encode2B n).lsb ≤ 127
    ∧ 1 ≤ (encode2B n).msb ∧ (encode2B n).msb ≤ 127 := by
  simp only [encode2B]
  omega

/-- Witness for the amended C5 theorem at the concrete input 200. -/
theorem encode2B_printable_witness :
    200 < 127 * 127
    ∧ (1 ≤ (encode2B 200).lsb ∧ (encode2B 200).lsb ≤ 127
       ∧ 1 ≤ (encode2B 200).msb ∧ (encode2B 200).msb ≤ 127) :=
  ⟨by decide, encode2B_printable_below_16129 200 (by decide)⟩

/-- Claim C8: terminal_restore_defaults establishes width 26, height 10,
title ESPTerm, display timeout 20 ms, parser timeout 10 ms, fn alt mode
off, default foreground 7 and default background 0. -/
theorem restore_defaults_values :
    terminal_restore_defaults.width = 26
    ∧ terminal_restore_defaults.height = 10
    ∧ terminal_restore_defaults.title = "ESPTerm"
    ∧ terminal_restore_defaults.display_tout_ms = 20
    ∧ terminal_restore_defaults.parser_tout_ms = 10
    ∧ terminal_restore_defaults.fn_alt_mode = false
    ∧ terminal_restore_defaults.default_fg = 7
    ∧ terminal_restore_defaults.default_bg = 0 :=
  ⟨rfl, rfl, rfl, rfl, rfl, rfl, rfl, rfl⟩

/-- Claim C9: the ClearMode constants carry the numeric values 0 for
clear to cursor, 1 for clear from cursor and 2 for clear all (the reverse
of the CSI ED and EL wire convention, where parameter 0 erases from the
cursor), and every clear range includes the cursor cell. -/
theorem clear_mode_values_cursor_included :
    (ClearMode.CLEAR_TO_CURSOR.val = 0 ∧ ClearMode.CLEAR_FROM_CURSOR.val = 1
     ∧ ClearMode.CLEAR_ALL.val = 2)
    ∧ (∀ (mode : ClearMode) (cx w : Nat), cx < w →
         clearLineCols mode cx w cx = true)
    ∧ (∀ (mode : ClearMode) (st : TerminalState), st.cursor.x < st.w →
         (screen_clear mode st).grid st.cursor.y st.cursor.x =
           blankCell st.cursor.fg st.cursor.bg
         ∧ (screen_clear_line mode st).grid st.cursor.y st.cursor.x =
           blankCell st.cursor.fg st.cursor.bg) := by
  refine ⟨⟨rfl, rfl, rfl⟩, ?_, ?_⟩
  · intro mode cx w h
    cases mode <;> simp [clearLineCols] <;> omega
  · intro mode st h
    constructor
    · have hc : clearScreenCells mode st.cursor.y st.cursor.x st.w
          st.cursor.y st.cursor.x = true := by
        cases mode <;> simp [clearScreenCells, h]
      simp [screen_clear, hc]
    · have hc : clearLineCols mode st.cursor.x st.w st.cursor.x = true := by
        cases mode <;> simp [clearLineCols] <;> omega
      simp [screen_clear_line, hc]

/-- Witness for the C9 theorem at mode clear all on a one column line. -/
theorem clear_mode_witness :
    (0 : Nat) < 1 ∧ clearLineCols ClearMode.CLEAR_ALL 0 1 0 = true :=
  ⟨by decide, clear_mode_values_cursor_included.2.1 ClearMode.CLEAR_ALL 0 1 (by decide)⟩

/-- A concrete state for witnesses: the fresh screen built from the
factory defaults. -/
def st0 : TerminalState := screen_init terminal_restore_defaults

/-- Claim C10: the seven attribute constants are pairwise disjoint single
bit masks on bits 0 to 6 of one byte, screen_attr_enable sets exactly the
bits of its mask and screen_attr_disable clears exactly the bits of its
mask, leaving every attribute bit outside the mask unchanged. -/
theorem attr_masks_enable_disable :
    (ATTR_BOLD = 2 ^ 0 ∧ ATTR_FAINT = 2 ^ 1 ∧ ATTR_ITALIC = 2 ^ 2
     ∧ ATTR_UNDERLINE = 2 ^ 3 ∧ ATTR_BLINK = 2 ^ 4 ∧ ATTR_FRAKTUR = 2 ^ 5
     ∧ ATTR_STRIKE = 2 ^ 6
     ∧ (∀ a ∈ [ATTR_BOLD, ATTR_FAINT, ATTR_ITALIC, ATTR_UNDERLINE,
               ATTR_BLINK, ATTR_FRAKTUR, ATTR_STRIKE],
        ∀ b ∈ [ATTR_BOLD, ATTR_FAINT, ATTR_ITALIC, ATTR_UNDERLINE,
               ATTR_BLINK, ATTR_FRAKTUR, ATTR_STRIKE],
          a ≠ b → a &&& b = 0)
     ∧ (∀ a ∈ [ATTR_BOLD, ATTR_FAINT, ATTR_ITALIC, ATTR_UNDERLINE,
               ATTR_BLINK, ATTR_FRAKTUR, ATTR_STRIKE], a < 256))
    ∧ (∀ (st : TerminalState) (m i : Nat),
         Nat.testBit (screen_attr_enable m st).cursor.attrs i =
           (Nat.testBit st.cursor.attrs i || Nat.testBit m i))
    ∧ (∀ (st : TerminalState) (m i : Nat),
         st.cursor.attrs < 256 → m < 256 →
         Nat.testBit (screen_attr_disable m st).cursor.attrs i =
           (Nat.testBit st.cursor.attrs i && !Nat.testBit m i)) := by
  refine ⟨by decide, ?_, ?_⟩
  · intro st m i
    simp [screen_attr_enable, Nat.testBit_lor]
  · intro st m i ha hm
    simp only [screen_attr_disable, Nat.testBit_land, Nat.testBit_xor]
    rcases lt_or_ge i 8 with h8 | h8
    · have h255 : Nat.testBit 255 i = true := by
        interval_cases i <;> decide
      simp [h255]
    · have hpow : 256 ≤ 2 ^ i := by
        calc (256 : Nat) = 2 ^ 8 := by norm_num
        _ ≤ 2 ^ i := Nat.pow_le_pow_right (by norm_num) h8
      have hA : Nat.testBit st.cursor.attrs i = false :=
        Nat.testBit_lt_two_pow (lt_of_lt_of_le ha hpow)
      simp [hA]

/-- Witness for the C10 theorem: disable mask 1 on the fresh state at bit
0, with the byte range hypotheses discharged concretely. -/
theorem attr_disable_witness :
    Nat.testBit (screen_attr_disable 1 st0).cursor.attrs 0 =
      (Nat.testBit st0.cursor.attrs 0 && !Nat.testBit 1 0) :=
  attr_masks_enable_disable.2.2 st0 1 0 (by decide) (by decide)

/-- Claim C4: the cell attribute bitset has the flags bold, faint, italic,
underline, blink, fraktur, strike and inverse as the eight bits of one
byte; inverse is stored in the attribute bitset like the other seven
(screen_inverse_enable touches only the attribute byte, never a stored
color index, and screen_putchar stores the cursor colors unswapped with
the full attribute byte), while the fg and bg swap for inverse happens
only at serialization time. -/
theorem inverse_in_attr_bitset :
    (ATTR_BOLD = 2 ^ 0 ∧ ATTR_FAINT = 2 ^ 1 ∧ ATTR_ITALIC = 2 ^ 2
     ∧ ATTR_UNDERLINE = 2 ^ 3 ∧ ATTR_BLINK = 2 ^ 4 ∧ ATTR_FRAKTUR = 2 ^ 5
     ∧ ATTR_STRIKE = 2 ^ 6 ∧ ATTR_INVERSE = 2 ^ 7)
    ∧ (∀ st : TerminalState,
         Nat.testBit (screen_inverse_enable true st).cursor.attrs 7 = true
         ∧ (screen_inverse_enable true st).cursor.fg = st.cursor.fg
         ∧ (screen_inverse_enable true st).cursor.bg = st.cursor.bg
         ∧ (screen_inverse_enable false st).cursor.fg = st.cursor.fg
         ∧ (screen_inverse_enable false st).cursor.bg = st.cursor.bg)
    ∧ (∀ (st : TerminalState) (ch : List Nat), st.cursor.x < st.w →
         (screen_putchar ch st).grid st.cursor.y st.cursor.x =
           { c := ch, fg := st.cursor.fg, bg := st.cursor.bg,
             attrs := st.cursor.attrs })
    ∧ (∀ cell : Cell, cell.attrs.testBit 7 = true →
         serializedColors cell = (cell.bg, cell.fg))
    ∧ (∀ cell : Cell, cell.attrs.testBit 7 = false →
         serializedColors cell = (cell.fg, cell.bg)) := by
  refine ⟨by decide, ?_, ?_, ?_, ?_⟩
  · intro st
    refine ⟨?_, rfl, rfl, rfl, rfl⟩
    have h128 : Nat.testBit 128 7 = true := by decide
    simp [screen_inverse_enable, screen_attr_enable, Nat.testBit_lor, ATTR_INVERSE, h128]
  · intro st ch h
    have hcond : ¬ (st.wrap_mode ∧ st.w ≤ st.cursor.x) := by
      rintro ⟨-, hw⟩
      omega
    have hxw : min st.cursor.x (st.w - 1) = st.cursor.x := by omega
    simp [screen_putchar, hcond, hxw]
  · intro cell hc
    simp [serializedColors, hc]
  · intro cell hc
    simp [serializedColors, hc]

/-- Witness for the C4 theorem: a putchar at the fresh state stores the
cursor colors unswapped, and the serializer leaves non inverse cells
unswapped. -/
theorem inverse_attr_witness :
    (st0.cursor.x < st0.w
     ∧ (screen_putchar [65] st0).grid st0.cursor.y st0.cursor.x =
         { c := [65], fg := st0.cursor.fg, bg := st0.cursor.bg,
           attrs := st0.cursor.attrs })
    ∧ ((blankCell 7 0).attrs.testBit 7 = false
       ∧ serializedColors (blankCell 7 0) = (7, 0)) :=
  ⟨⟨by decide, inverse_in_attr_bitset.2.2.1 st0 [65] (by decide)⟩,
   ⟨by decide, inverse_in_attr_bitset.2.2.2.2 (blankCell 7 0) (by decide)⟩⟩

/-- No cursor movement call changes the grid dimensions, the scroll
region or the saved cursor slots. -/
lemma applyCursorOp_frame (op : CursorOp) (st : TerminalState) :
    (applyCursorOp op st).w = st.w ∧ (applyCursorOp op st).h = st.h
    ∧ (applyCursorOp op st).region_top = st.region_top
    ∧ (applyCursorOp op st).region_bot = st.region_bot
    ∧ (applyCursorOp op st).saved_dec = st.saved_dec
    ∧ (applyCursorOp op st).saved_plain = st.saved_plain := by
  cases op <;> exact ⟨rfl, rfl, rfl, rfl, rfl, rfl⟩

/-- Clamping lands in the inclusive range when the range is nonempty. -/
lemma clampToNat_mem (v : Int) (lo hi : Nat) (h : lo ≤ hi) :
    lo ≤ clampToNat v lo hi ∧ clampToNat v lo hi ≤ hi := by
  simp only [clampToNat]
  omega

/-- Each cursor movement call keeps the cursor in bounds. -/
lemma applyCursorOp_bounds (op : CursorOp) (st : TerminalState)
    (hwf : StateWF st) (hcb : CursorInBounds st) :
    CursorInBounds (applyCursorOp op st) := by
  obtain ⟨hw, hh, htb, hbh⟩ := hwf
  obtain ⟨hy, hx⟩ := hcb
  cases op with
  | set y x =>
    refine ⟨?_, ?_⟩ <;>
      simp only [applyCursorOp, screen_cursor_set, CursorInBounds, clampToNat]
    · split <;> omega
    · omega
  | move dy dx sc =>
    refine ⟨?_, ?_⟩ <;>
      simp only [applyCursorOp, screen_cursor_move, CursorInBounds, clampToNat]
    · split <;> omega
    · omega
  | put ch =>
    refine ⟨?_, ?_⟩ <;>
      simp only [applyCursorOp, screen_putchar, index_down, CursorInBounds] <;>
      split_ifs <;> omega

/-- A sequence of cursor movement calls keeps the state well formed and
the cursor in bounds. -/
lemma applyCursorOps_preserve (ops : List CursorOp) (st : TerminalState)
    (hwf : StateWF st) (hcb : CursorInBounds st) :
    StateWF (applyCursorOps ops st) ∧ CursorInBounds (applyCursorOps ops st) := by
  induction ops generalizing st with
  | nil => exact ⟨hwf, hcb⟩
  | cons op ops ih =>
    have hfr := applyCursorOp_frame op st
    have hwf2 : StateWF (applyCursorOp op st) := by
      obtain ⟨h1, h2, h3, h4, -, -⟩ := hfr
      exact ⟨h1 ▸ hwf.1, h2 ▸ hwf.2.1, h3 ▸ h4 ▸ hwf.2.2.1,
             h2 ▸ h4 ▸ hwf.2.2.2⟩
    exact ih (applyCursorOp op st) hwf2 (applyCursorOp_bounds op st ⟨hwf.1, hwf.2.1, hwf.2.2.1, hwf.2.2.2⟩ hcb)

/-- The fresh screen is well formed and its cursor is in bounds. -/
lemma screen_init_wf (cfg : TerminalConfigBundle) :
    StateWF (screen_init cfg) ∧ CursorInBounds (screen_init cfg) := by
  refine ⟨⟨?_, ?_, ?_, ?_⟩, ?_, ?_⟩ <;>
    simp only [screen_init, StateWF, CursorInBounds, clampDim] <;> omega

/-- Claim C1: starting from the initialized screen, no sequence of
screen_cursor_set, screen_cursor_move or screen_putchar calls, as driven
by the parser over any input stream, can move the cursor outside
0 ≤ y < H and 0 ≤ x ≤ W, where x = W is only the pending wrap state. -/
theorem cursor_in_bounds_after_ops (cfg : TerminalConfigBundle) (ops : List CursorOp) :
    (applyCursorOps ops (screen_init cfg)).cursor.y
        < (applyCursorOps ops (screen_init cfg)).h
    ∧ (applyCursorOps ops (screen_init cfg)).cursor.x
        ≤ (applyCursorOps ops (screen_init cfg)).w :=
  (applyCursorOps_preserve ops (screen_init cfg)
    (screen_init_wf cfg).1 (screen_init_wf cfg).2).2

/-- Cursor movement calls never touch the DECSC saved slot. -/
lemma applyCursorOps_saved_dec (ops : List CursorOp) (st : TerminalState) :
    (applyCursorOps ops st).saved_dec = st.saved_dec := by
  induction ops generalizing st with
  | nil => rfl
  | cons op ops ih =>
    exact (ih (applyCursorOp op st)).trans (applyCursorOp_frame op st).2.2.2.2.1

/-- Cursor movement calls never touch the plain saved slot. -/
lemma applyCursorOps_saved_plain (ops : List CursorOp) (st : TerminalState) :
    (applyCursorOps ops st).saved_plain = st.saved_plain := by
  induction ops generalizing st with
  | nil => rfl
  | cons op ops ih =>
    exact (ih (applyCursorOp op st)).trans (applyCursorOp_frame op st).2.2.2.2.2

/-- Claim C7: for every cursor position, saving the cursor, performing any
sequence of cursor movement calls, then restoring with the matching
withAttrs flag returns the cursor to the saved position. -/
theorem cursor_save_restore_roundtrip (st : TerminalState) (withAttrs : Bool)
    (ops : List CursorOp) :
    (screen_cursor_restore withAttrs
        (applyCursorOps ops (screen_cursor_save withAttrs st))).cursor.y
      = st.cursor.y
    ∧ (screen_cursor_restore withAttrs
        (applyCursorOps ops (screen_cursor_save withAttrs st))).cursor.x
      = st.cursor.x := by
  cases withAttrs with
  | false =>
    have hs : (applyCursorOps ops (screen_cursor_save false st)).saved_plain
        = some st.cursor := by
      rw [applyCursorOps_saved_plain]
      rfl
    simp [screen_cursor_restore, hs]
  | true =>
    have hs : (applyCursorOps ops (screen_cursor_save true st)).saved_dec
        = some st.cursor := by
      rw [applyCursorOps_saved_dec]
      rfl
    simp [screen_cursor_restore, hs]

/-- Claim C6: scrolling the region up by n and then down by n, with n
below the region height, restores every row that the pair of scrolls did
not vacate; the vacated rows are the top n rows of the region, blanked by
the downward scroll. -/
theorem scroll_up_down_preserves_rows (st : TerminalState) (n row col : Nat)
    (hn : st.region_top + n ≤ st.region_bot)
    (hrow : ¬ (st.region_top ≤ row ∧ row < st.region_top + n)) :
    (screen_scroll_down n (screen_scroll_up n st)).grid row col
      = st.grid row col := by
  by_cases h1 : st.region_top ≤ row ∧ row ≤ st.region_bot
  · have h2 : st.region_top + n ≤ row := by omega
    have h3 : st.region_top ≤ row - n ∧ row - n ≤ st.region_bot := by omega
    have h4 : row - n + n ≤ st.region_bot := by omega
    have h5 : row - n + n = row := by omega
    simp only [screen_scroll_down, screen_scroll_up]
    rw [if_pos h1, if_pos h2, if_pos h3, if_pos h4, h5]
  · simp only [screen_scroll_down, screen_scroll_up]
    rw [if_neg h1, if_neg h1]

/-- Witness for the C6 theorem on the fresh default screen: scroll by 2,
row 5 is outside the vacated band and keeps its contents. -/
theorem scroll_roundtrip_witness :
    (st0.region_top + 2 ≤ st0.region_bot
     ∧ ¬ (st0.region_top ≤ 5 ∧ 5 < st0.region_top + 2))
    ∧ (screen_scroll_down 2 (screen_scroll_up 2 st0)).grid 5 3 = st0.grid 5 3 :=
  ⟨⟨by decide, by decide⟩,
   scroll_up_down_preserves_rows st0 2 5 3 (by decide) (by decide)⟩

end ESPTerm
